import Mathlib

/-!
# A shallow embedding of the HSA ring-queue core of `geobacter`

This file models `src/hsa-rt/src/queue.rs`: the packet-header codec, the
lock-free ring-buffer enqueue protocol (`RingQueue::try_enqueue_packet` and
its barrier / kernel-dispatch front ends), and the software-queue consumer
loop (`SoftQueue::process`), together with theorems about the queue-full
discipline, validation order, and the consumer's per-packet cleanup.

Machine integers are modelled as `Nat` with explicit reduction modulo
`2 ^ 64` (resp. `2 ^ 16`) exactly where the Rust code performs wrapping
`u64` (resp. `u16`) arithmetic.  Signals are modelled as an environment
mapping signal handles (`Nat`, with `0` the default/null handle) to their
`i64` values (`Int`).  The shared-memory packet array is a `List` of slots;
a slot is one record merging the fields of the ffi packet structs that
overlay the same slot memory (kernel dispatch, barrier, agent dispatch).
-/

namespace Geobacter

/-- Wrapping modulus of `u64`. -/
def U64 : Nat := 2 ^ 64

/-- Wrapping `u64` subtraction `a - b`, for `a b < U64`. -/
def u64_sub (a b : Nat) : Nat := (a + U64 - b) % U64

/-- The value of a `u64` reinterpreted as an `i64` (`as i64` in Rust). -/
def toI64 (n : Nat) : Int :=
  if n % U64 < 2 ^ 63 then (n % U64 : Int) else (n % U64 : Int) - (U64 : Int)

/-- `QueueType` from queue.rs: the producer discipline of a queue. -/
inductive QueueType
  | Multiple
  | Single
deriving DecidableEq, Repr

/-- `FenceScope` from queue.rs. -/
inductive FenceScope
  | None
  | Agent
  | System
deriving DecidableEq, Repr

/-- `QueueError` from queue.rs. -/
inductive QueueError
  | Full
  | WorkgroupDimSize
  | GridDimSize
deriving DecidableEq, Repr

/-- Modelled from the spec: the generated `ffi` bindings crate (the HSA C
headers) is not under src/.  These constants are the HSA packet-type codes
referred to by queue.rs (`ffi::hsa_packet_type_t_*`). -/
def HSA_PACKET_TYPE_INVALID : Nat := 1

/-- Modelled from the spec: ffi packet-type code for kernel dispatch. -/
def HSA_PACKET_TYPE_KERNEL_DISPATCH : Nat := 2

/-- Modelled from the spec: ffi packet-type code for AND-barriers. -/
def HSA_PACKET_TYPE_BARRIER_AND : Nat := 3

/-- Modelled from the spec: ffi packet-type code for OR-barriers. -/
def HSA_PACKET_TYPE_BARRIER_OR : Nat := 5

/-- Modelled from the spec: bit position of the type field in the 16-bit
packet header (`ffi::hsa_packet_header_t_HSA_PACKET_HEADER_TYPE`); the
spec's wire-layout section gives the header as
`type | acquire_fence_scope | release_fence_scope | ordered_bit`. -/
def HSA_PACKET_HEADER_TYPE : Nat := 0

/-- Modelled from the spec: bit position of the ordered/barrier bit. -/
def HSA_PACKET_HEADER_BARRIER : Nat := 8

/-- Modelled from the spec: bit position of the acquire fence scope. -/
def HSA_PACKET_HEADER_SCACQUIRE_FENCE_SCOPE : Nat := 9

/-- Modelled from the spec: bit position of the release fence scope. -/
def HSA_PACKET_HEADER_SCRELEASE_FENCE_SCOPE : Nat := 11

/-- Modelled from the spec: ffi fence-scope code `None = 0`. -/
def HSA_FENCE_SCOPE_NONE : Nat := 0

/-- Modelled from the spec: ffi fence-scope code for `Agent`. -/
def HSA_FENCE_SCOPE_AGENT : Nat := 1

/-- Modelled from the spec: ffi fence-scope code for `System`. -/
def HSA_FENCE_SCOPE_SYSTEM : Nat := 2

/-- Modelled from the spec: bit position of the dimensions field in the
16-bit `setup` word of a kernel-dispatch packet
(`ffi::hsa_kernel_dispatch_packet_setup_t_..._SETUP_DIMENSIONS`). -/
def HSA_KERNEL_DISPATCH_PACKET_SETUP_DIMENSIONS : Nat := 0

/-- `scope_to_enum` from queue.rs. -/
def scope_to_enum (scope : FenceScope) : Nat :=
  match scope with
  | FenceScope.None => HSA_FENCE_SCOPE_NONE
  | FenceScope.System => HSA_FENCE_SCOPE_SYSTEM
  | FenceScope.Agent => HSA_FENCE_SCOPE_AGENT

/-- `header` from queue.rs: pack type, the two fence scopes and the ordered
bit into the 16-bit packet header. -/
def header (ty : Nat) (scaquire screlease : FenceScope) (ordered : Bool) :
    Nat :=
  let h0 := (ty % 2 ^ 16) <<< HSA_PACKET_HEADER_TYPE
  let h1 := h0 ||| (scope_to_enum scaquire <<< HSA_PACKET_HEADER_SCACQUIRE_FENCE_SCOPE)
  let h2 := h1 ||| (scope_to_enum screlease <<< HSA_PACKET_HEADER_SCRELEASE_FENCE_SCOPE)
  if ordered then h2 ||| (1 <<< HSA_PACKET_HEADER_BARRIER) else h2

/-- Decode the type field out of a 16-bit packet header (wire layout of the
spec: the type field is 8 bits wide at `HSA_PACKET_HEADER_TYPE`). -/
def header_type (h : Nat) : Nat := (h >>> HSA_PACKET_HEADER_TYPE) &&& 0xFF

/-- Decode the acquire fence scope field (2 bits) of a packet header. -/
def header_scacquire (h : Nat) : Nat :=
  (h >>> HSA_PACKET_HEADER_SCACQUIRE_FENCE_SCOPE) &&& 0x3

/-- Decode the release fence scope field (2 bits) of a packet header. -/
def header_screlease (h : Nat) : Nat :=
  (h >>> HSA_PACKET_HEADER_SCRELEASE_FENCE_SCOPE) &&& 0x3

/-- Decode the ordered/barrier bit of a packet header. -/
def header_barrier_bit (h : Nat) : Nat :=
  (h >>> HSA_PACKET_HEADER_BARRIER) &&& 0x1

/-- One ring-buffer slot.  The ffi packet structs
(`hsa_kernel_dispatch_packet_t`, `hsa_barrier_and_packet_t`,
`hsa_barrier_or_packet_t`, `hsa_agent_dispatch_packet_t`) all overlay the
same slot memory; this record merges their fields.  `header` is the first
16-bit word; `setup` is the second 16-bit word (named `setup` in the
dispatch struct and `type_` in the agent-dispatch struct: the `rest`
argument of `packet_store_rel`).  Signal handles are `Nat`, `0` being the
default/null handle. -/
structure Slot where
  header : Nat
  setup : Nat
  workgroup_size_x : Nat
  workgroup_size_y : Nat
  workgroup_size_z : Nat
  grid_size_x : Nat
  grid_size_y : Nat
  grid_size_z : Nat
  private_segment_size : Nat
  group_segment_size : Nat
  kernel_object : Nat
  kernarg_address : Nat
  dep_signal : List Nat
  completion_signal : Nat
deriving DecidableEq, Repr, Inhabited

/-- `packet_store_rel` from queue.rs: the one atomic release store of the
32-bit word `header | (rest <<< 16)` into the first word of the slot, i.e.
of both 16-bit fields at once. -/
def packet_store_rel (p : Slot) (hdr rest : Nat) : Slot :=
  { p with header := hdr % 2 ^ 16, setup := rest % 2 ^ 16 }

/-- The state of one queue plus the signal environment it touches.  Fields
mirror `ffi::hsa_queue_t` as used by queue.rs: `size` is the slot capacity,
`packets` the shared packet array (`base_address`), `doorbell` the handle
of the queue's doorbell signal (`doorbell_signal`), and `signals` maps
every signal handle to its current `i64` value.  `kind` is the queue-kind
tag (`QueueType` / the `SingleQueueType` vs `MultiQueueType` markers). -/
structure QueueState where
  kind : QueueType
  size : Nat
  writeIndex : Nat
  readIndex : Nat
  packets : List Slot
  doorbell : Nat
  signals : Nat → Int

/-- `RawQueue::load_read_index_scacquire`. -/
def load_read_index_scacquire (q : QueueState) : Nat := q.readIndex

/-- `RawQueue::add_write_index_screlease`: wrapping `u64` fetch-add on the
write index, returning the previous value. -/
def add_write_index_screlease (q : QueueState) (v : Nat) :
    Nat × QueueState :=
  (q.writeIndex, { q with writeIndex := (q.writeIndex + v) % U64 })

/-- The memory orders a `RawQueue` write-index fetch-add can use
(`add_write_index_relaxed` / `_scacquire` / `_screlease` /
`_scacq_screl` in queue.rs). -/
inductive AtomicOrder
  | relaxed
  | scacquire
  | screlease
  | scacq_screl
deriving DecidableEq, Repr

/-- The memory order of the write-index fetch-add performed by
`RingQueue::try_enqueue_packet` as a function of the queue's kind.  The
trait has a single default implementation that calls
`add_write_index_screlease` for every `Self::Kind` (queue.rs line 301; the
doc comment on `RingQueue` notes it does not implement faster operations
for single queue types). -/
def write_index_add_order (_kind : QueueType) : AtomicOrder :=
  AtomicOrder.screlease

/-- `SignalRef::store_screlease` on the doorbell signal. -/
def doorbell_store_screlease (q : QueueState) (v : Int) : QueueState :=
  { q with signals := Function.update q.signals q.doorbell v }

/-- `RingQueue::try_enqueue_packet` from queue.rs: fetch-add the write
index, load the read index, fail with `Full` if
`write_index - read_index >= packet_count` (wrapping `u64` arithmetic),
otherwise run the caller's body writer `f` on slot
`write_index & (packet_count - 1)` and store the write index into the
doorbell. -/
def try_enqueue_packet (q : QueueState) (f : Slot → Slot) :
    Except QueueError Unit × QueueState :=
  let packet_count := q.size
  let wq := add_write_index_screlease q 1
  let write_index := wq.1
  let q1 := wq.2
  let read_index := load_read_index_scacquire q1
  if packet_count ≤ u64_sub write_index read_index then
    (Except.error QueueError.Full, q1)
  else
    let packet_index := write_index &&& (packet_count - 1)
    let packet := q1.packets.getD packet_index default
    let q2 := { q1 with packets := q1.packets.set packet_index (f packet) }
    let q3 := doorbell_store_screlease q2 (toI64 write_index)
    (Except.ok (), q3)

/-- `RingQueue::try_enqueue_barrier_and` from queue.rs.  `deps` models the
caller's iterator of signal handles (consumed in order); `completion` the
optional completion signal.  The body writer stamps the slot `Invalid`,
sets the completion field when present, fills all five dependency slots
from the iterator (default/null handle once it is exhausted), and publishes
the AND-barrier header.  Note the code passes `completion.is_none()` as the
`ordered` argument of `header`. -/
def try_enqueue_barrier_and (q : QueueState) (deps : List Nat)
    (completion : Option Nat) : Except QueueError Unit × QueueState :=
  let ty := header HSA_PACKET_TYPE_BARRIER_AND FenceScope.None FenceScope.None
    completion.isNone
  let invalid_ty := header HSA_PACKET_TYPE_INVALID FenceScope.None
    FenceScope.None completion.isNone
  try_enqueue_packet q (fun packet =>
    let packet := packet_store_rel packet invalid_ty 0
    let packet :=
      match completion with
      | some signal => { packet with completion_signal := signal }
      | none => packet
    let packet :=
      { packet with dep_signal := (List.range 5).map (fun i => deps.getD i 0) }
    packet_store_rel packet ty 0)

/-- `RingQueue::try_enqueue_barrier_or` from queue.rs; identical to the
AND version except for the packet type. -/
def try_enqueue_barrier_or (q : QueueState) (deps : List Nat)
    (completion : Option Nat) : Except QueueError Unit × QueueState :=
  let ty := header HSA_PACKET_TYPE_BARRIER_OR FenceScope.None FenceScope.None
    completion.isNone
  let invalid_ty := header HSA_PACKET_TYPE_INVALID FenceScope.None
    FenceScope.None completion.isNone
  try_enqueue_packet q (fun packet =>
    let packet := packet_store_rel packet invalid_ty 0
    let packet :=
      match completion with
      | some signal => { packet with completion_signal := signal }
      | none => packet
    let packet :=
      { packet with dep_signal := (List.range 5).map (fun i => deps.getD i 0) }
    packet_store_rel packet ty 0)

/-- `DispatchPacket` from queue.rs.  Dimension triples are
`(x, y, z)`; `kernel_args` is the address of the borrowed kernel-argument
buffer (the pointer `transmute_copy` extracts); `completion_signal` is an
optional signal handle. -/
structure DispatchPacket where
  workgroup_size : Nat × Nat × Nat
  grid_size : Nat × Nat × Nat
  private_segment_size : Nat
  group_segment_size : Nat
  ordered : Bool
  scaquire_scope : FenceScope
  screlease_scope : FenceScope
  kernel_object : Nat
  kernel_args : Nat
  completion_signal : Option Nat
deriving DecidableEq, Repr

/-- `DispatchPacket::check` from queue.rs: `WorkgroupDimSize` if any
workgroup dimension is 0, else `GridDimSize` if any grid dimension is 0. -/
def DispatchPacket.check (d : DispatchPacket) : Except QueueError Unit :=
  let wg := d.workgroup_size
  let grid := d.grid_size
  if wg.1 = 0 ∨ wg.2.1 = 0 ∨ wg.2.2 = 0 then
    Except.error QueueError.WorkgroupDimSize
  else if grid.1 = 0 ∨ grid.2.1 = 0 ∨ grid.2.2 = 0 then
    Except.error QueueError.GridDimSize
  else
    Except.ok ()

/-- `DispatchPacket::initialize_packet` from queue.rs (shortened name):
copy the descriptor's fields into the slot and return the dispatch
dimensionality (the Rust function mutates `p` and returns a `usize`). -/
def DispatchPacket.init_packet (d : DispatchPacket) (p : Slot) :
    Slot × Nat :=
  let workgroup_size := d.workgroup_size
  let grid := d.grid_size
  let p := { p with
    workgroup_size_x := workgroup_size.1
    workgroup_size_y := workgroup_size.2.1
    workgroup_size_z := workgroup_size.2.2
    grid_size_x := grid.1
    grid_size_y := grid.2.1
    grid_size_z := grid.2.2
    private_segment_size := d.private_segment_size
    group_segment_size := d.group_segment_size
    kernel_object := d.kernel_object
    kernarg_address := d.kernel_args
    completion_signal := d.completion_signal.getD 0 }
  let n : Nat :=
    if grid.1 = 1 ∧ grid.2.1 = 1 ∧ grid.2.2 = 1 then 0
    else if grid.2.1 = 1 ∧ grid.2.2 = 1 then 1
    else if grid.2.2 = 1 then 2
    else 3
  (p, n)

/-- `RingQueue::try_enqueue_kernel_dispatch` from queue.rs: validate the
descriptor before any write index is consumed, then enqueue with a body
writer that stamps `Invalid`, fills the packet from the descriptor, and
publishes the kernel-dispatch header together with the `setup` word
holding the dimensionality. -/
def try_enqueue_kernel_dispatch (q : QueueState) (dispatch : DispatchPacket) :
    Except QueueError Unit × QueueState :=
  match dispatch.check with
  | Except.error e => (Except.error e, q)
  | Except.ok () =>
    let ty := header HSA_PACKET_TYPE_KERNEL_DISPATCH dispatch.scaquire_scope
      dispatch.screlease_scope dispatch.ordered
    let invalid_ty := header HSA_PACKET_TYPE_INVALID FenceScope.None
      FenceScope.None true
    try_enqueue_packet q (fun packet =>
      let packet := packet_store_rel packet invalid_ty 0
      let pg := dispatch.init_packet packet
      let setup :=
        (pg.2 % 2 ^ 16) <<< HSA_KERNEL_DISPATCH_PACKET_SETUP_DIMENSIONS
      packet_store_rel pg.1 ty setup)

/-- `ProcessLoopResult` from queue.rs: the handler's verdict after one
packet. -/
inductive ProcessLoopResult (T : Type)
  | Exit : T → ProcessLoopResult T
  | Continue
deriving DecidableEq, Repr

/-- The per-iteration cleanup of `SoftQueue::process` after the handler has
run on the packet at slot `read_index & (packet_count - 1)`: subtract 1
(release) from the packet's completion signal when it is non-default,
restamp the slot's header to `Invalid` (fence scopes `System`, preserving
the second 16-bit word `type_`), and store the incremented read index. -/
def drain_step (q : QueueState) (read_index : Nat) : QueueState :=
  let packet_index := read_index &&& (q.size - 1)
  let packet := q.packets.getD packet_index default
  let q1 :=
    if packet.completion_signal ≠ 0 then
      { q with signals := (Function.update q.signals packet.completion_signal
          (q.signals packet.completion_signal - 1)) }
    else q
  let invalid_ty := HSA_PACKET_TYPE_INVALID
  let rest := packet.setup
  let q2 := { q1 with packets := (q1.packets.set packet_index
    (packet_store_rel packet
      (header invalid_ty FenceScope.System FenceScope.System false) rest)) }
  { q2 with readIndex := (read_index + 1) % U64 }

/-- The loop of `SoftQueue::process`, with explicit fuel (the Rust loop can
run forever).  Each iteration first waits on the doorbell until its value
is at least `read_index`; with no concurrent producer in the model, a
doorbell below `read_index` blocks forever (`none`).  Then the handler `f`
runs on the packet at `read_index & (packet_count - 1)`, the cleanup of
`drain_step` is performed, and the loop returns on `Exit` or iterates on
`Continue`. -/
def process_loop {V : Type} :
    Nat → QueueState → Nat → (Slot → ProcessLoopResult V) →
      Option (V × QueueState)
  | 0, _, _, _ => none
  | fuel + 1, q, read_index, f =>
    if q.signals q.doorbell < toI64 read_index then none
    else
      let packet_index := read_index &&& (q.size - 1)
      let packet := q.packets.getD packet_index default
      let ret := f packet
      let q1 := drain_step q read_index
      match ret with
      | ProcessLoopResult.Exit r => some (r, q1)
      | ProcessLoopResult.Continue =>
        process_loop fuel q1 ((read_index + 1) % U64) f

/-- `SoftQueue::process` from queue.rs: load the read index once, then run
the drain loop. -/
def SoftQueue.process {V : Type} (fuel : Nat) (q : QueueState)
    (f : Slot → ProcessLoopResult V) : Option (V × QueueState) :=
  process_loop fuel q (load_read_index_scacquire q) f

/-- Iterated `try_enqueue_packet` with one body writer: the state after `n`
consecutive enqueue calls. -/
def enqueueN (f : Slot → Slot) : Nat → QueueState → QueueState
  | 0, q => q
  | n + 1, q => (try_enqueue_packet (enqueueN f n q) f).2

theorem U64_eq : U64 = 18446744073709551616 := by norm_num [U64]

/-- The packet the consumer-side code selects for index `i`:
slot `i & (capacity - 1)` of the packet array. -/
def slot_at (q : QueueState) (i : Nat) : Slot :=
  q.packets.getD (i &&& (q.size - 1)) default

theorem teq_fst (q : QueueState) (f : Slot → Slot) :
    (try_enqueue_packet q f).1 =
      if q.size ≤ u64_sub q.writeIndex q.readIndex then
        Except.error QueueError.Full
      else Except.ok () := by
  by_cases h : q.size ≤ u64_sub q.writeIndex q.readIndex <;>
    simp [try_enqueue_packet, add_write_index_screlease,
      load_read_index_scacquire, doorbell_store_screlease, h]

theorem teq_snd_full (q : QueueState) (f : Slot → Slot)
    (h : q.size ≤ u64_sub q.writeIndex q.readIndex) :
    (try_enqueue_packet q f).2 =
      { q with writeIndex := (q.writeIndex + 1) % U64 } := by
  simp [try_enqueue_packet, add_write_index_screlease,
    load_read_index_scacquire, h]

theorem teq_snd_ok (q : QueueState) (f : Slot → Slot)
    (h : ¬ q.size ≤ u64_sub q.writeIndex q.readIndex) :
    (try_enqueue_packet q f).2 =
      { q with
        writeIndex := (q.writeIndex + 1) % U64
        packets := (q.packets.set (q.writeIndex &&& (q.size - 1))
          (f (q.packets.getD (q.writeIndex &&& (q.size - 1)) default)))
        signals := (Function.update q.signals q.doorbell
          (toI64 q.writeIndex)) } := by
  simp [try_enqueue_packet, add_write_index_screlease,
    load_read_index_scacquire, doorbell_store_screlease, h]

theorem teq_writeIndex (q : QueueState) (f : Slot → Slot) :
    (try_enqueue_packet q f).2.writeIndex = (q.writeIndex + 1) % U64 := by
  by_cases h : q.size ≤ u64_sub q.writeIndex q.readIndex
  · rw [teq_snd_full q f h]
  · rw [teq_snd_ok q f h]

theorem teq_readIndex (q : QueueState) (f : Slot → Slot) :
    (try_enqueue_packet q f).2.readIndex = q.readIndex := by
  by_cases h : q.size ≤ u64_sub q.writeIndex q.readIndex
  · rw [teq_snd_full q f h]
  · rw [teq_snd_ok q f h]

theorem teq_size (q : QueueState) (f : Slot → Slot) :
    (try_enqueue_packet q f).2.size = q.size := by
  by_cases h : q.size ≤ u64_sub q.writeIndex q.readIndex
  · rw [teq_snd_full q f h]
  · rw [teq_snd_ok q f h]

theorem enqueueN_invariants (f : Slot → Slot) (n : Nat) (q : QueueState)
    (hw : q.writeIndex < U64) :
    (enqueueN f n q).writeIndex = (q.writeIndex + n) % U64 ∧
    (enqueueN f n q).readIndex = q.readIndex ∧
    (enqueueN f n q).size = q.size := by
  induction n with
  | zero =>
    refine ⟨?_, rfl, rfl⟩
    simpa [enqueueN] using (Nat.mod_eq_of_lt hw).symm
  | succ n ih =>
    obtain ⟨ihw, ihr, ihs⟩ := ih
    refine ⟨?_, ?_, ?_⟩
    · rw [enqueueN, teq_writeIndex, ihw]
      simp only [U64_eq]
      omega
    · rw [enqueueN, teq_readIndex, ihr]
    · rw [enqueueN, teq_size, ihs]

theorem u64_sub_offset (i j : Nat) (hi : i < U64) (hj : j < U64) :
    u64_sub ((i + j) % U64) i = j := by
  simp only [u64_sub, U64_eq] at hi hj ⊢
  omega

/-- C1: `try_enqueue_packet` returns `Full` exactly when the fetch-add
result minus the read index (wrapping `u64` subtraction) is at least the
capacity; on `Full` no packet slot is written and no signal (in particular
the doorbell) is stored; consequently, from an empty queue (read index
equal to write index) of power-of-two capacity `C`, each of the first `C`
consecutive enqueues succeeds and the `(C+1)`-th returns `Full`. -/
theorem C1_full_discipline (f : Slot → Slot) (C k : Nat) (hC : C = 2 ^ k)
    (hC64 : C < U64) (st0 : QueueState) (hsize : st0.size = C)
    (hempty : st0.writeIndex = st0.readIndex) (hw : st0.writeIndex < U64) :
    (∀ q : QueueState,
      ((try_enqueue_packet q f).1 = Except.error QueueError.Full ↔
        q.size ≤ u64_sub q.writeIndex q.readIndex) ∧
      ((try_enqueue_packet q f).1 = Except.error QueueError.Full →
        (try_enqueue_packet q f).2.packets = q.packets ∧
        ∀ h : Nat, (try_enqueue_packet q f).2.signals h = q.signals h)) ∧
    (∀ j, j < C →
      (try_enqueue_packet (enqueueN f j st0) f).1 = Except.ok ()) ∧
    (try_enqueue_packet (enqueueN f C st0) f).1 =
      Except.error QueueError.Full := by
  refine ⟨?_, ?_, ?_⟩
  · intro q
    constructor
    · rw [teq_fst]
      by_cases h : q.size ≤ u64_sub q.writeIndex q.readIndex <;> simp [h]
    · intro hfull
      have h : q.size ≤ u64_sub q.writeIndex q.readIndex := by
        rw [teq_fst] at hfull
        by_contra hc
        simp [hc] at hfull
      rw [teq_snd_full q f h]
      exact ⟨rfl, fun _ => rfl⟩
  · intro j hj
    obtain ⟨hjw, hjr, hjs⟩ := enqueueN_invariants f j st0 hw
    rw [teq_fst, hjw, hjr, hjs, hsize, ← hempty,
      u64_sub_offset st0.writeIndex j hw (lt_trans hj hC64)]
    simp [Nat.not_le_of_lt hj]
  · obtain ⟨hjw, hjr, hjs⟩ := enqueueN_invariants f C st0 hw
    rw [teq_fst, hjw, hjr, hjs, hsize, ← hempty,
      u64_sub_offset st0.writeIndex C hw hC64]
    simp

/-- A concrete empty single-producer queue of capacity 4, doorbell handle
`1`, all signals at 0. -/
def q0 : QueueState :=
  { kind := QueueType.Single, size := 4, writeIndex := 0, readIndex := 0,
    packets := List.replicate 4 default, doorbell := 1,
    signals := fun _ => 0 }

/-- Witness for C1 at capacity `C = 4 = 2 ^ 2` on the concrete empty
queue `q0`, with the identity body writer. -/
theorem C1_full_discipline_witness :
    (∀ q : QueueState,
      ((try_enqueue_packet q id).1 = Except.error QueueError.Full ↔
        q.size ≤ u64_sub q.writeIndex q.readIndex) ∧
      ((try_enqueue_packet q id).1 = Except.error QueueError.Full →
        (try_enqueue_packet q id).2.packets = q.packets ∧
        ∀ h : Nat, (try_enqueue_packet q id).2.signals h = q.signals h)) ∧
    (∀ j, j < 4 →
      (try_enqueue_packet (enqueueN id j q0) id).1 = Except.ok ()) ∧
    (try_enqueue_packet (enqueueN id 4 q0) id).1 =
      Except.error QueueError.Full :=
  C1_full_discipline id 4 2 (by decide) (by norm_num [U64]) q0 rfl rfl
    (by norm_num [q0, U64])

/-- C8 counterexample: the claim says a single-producer queue uses a
relaxed write-index increment, but `RingQueue::try_enqueue_packet` calls
`add_write_index_screlease` for the `Single` kind as well. -/
theorem C8_counterexample :
    write_index_add_order QueueType.Single = AtomicOrder.screlease ∧
    AtomicOrder.screlease ≠ AtomicOrder.relaxed :=
  ⟨rfl, by decide⟩

/-- C8 amended: the write-index increment at the start of
`try_enqueue_packet` is the same `add_write_index_screlease` fetch-add
(release ordering) for both queue kinds: the `RingQueue` trait has a single
default implementation and does not specialize single-producer queues. -/
theorem C8_amended (kind : QueueType) :
    write_index_add_order kind = AtomicOrder.screlease := rfl

/-- C9: every `try_enqueue_packet` call, including one that returns
`Full`, advances the write index by exactly 1 (wrapping at `2 ^ 64`) and
leaves the read index alone; hence the occupancy `write - read` seen by
later `Full` checks grows by 1 even on failure. -/
theorem C9_index_always_consumed (q : QueueState) (f : Slot → Slot) :
    ((try_enqueue_packet q f).2.writeIndex = (q.writeIndex + 1) % U64) ∧
    ((try_enqueue_packet q f).2.readIndex = q.readIndex) ∧
    (q.writeIndex < U64 → q.readIndex < U64 →
      u64_sub (try_enqueue_packet q f).2.writeIndex
          (try_enqueue_packet q f).2.readIndex
        = (u64_sub q.writeIndex q.readIndex + 1) % U64) := by
  refine ⟨teq_writeIndex q f, teq_readIndex q f, ?_⟩
  intro hw hr
  rw [teq_writeIndex, teq_readIndex]
  simp only [u64_sub, U64_eq] at hw hr ⊢
  omega

/-- Witness for C9 on the concrete queue `q0` (its index bounds hold). -/
theorem C9_index_always_consumed_witness :
    ((try_enqueue_packet q0 id).2.writeIndex = (q0.writeIndex + 1) % U64) ∧
    ((try_enqueue_packet q0 id).2.readIndex = q0.readIndex) ∧
    (q0.writeIndex < U64 → q0.readIndex < U64 →
      u64_sub (try_enqueue_packet q0 id).2.writeIndex
          (try_enqueue_packet q0 id).2.readIndex
        = (u64_sub q0.writeIndex q0.readIndex + 1) % U64) :=
  C9_index_always_consumed q0 id

theorem teq_ok_slot (q : QueueState) (f : Slot → Slot)
    (hnotfull : ¬ q.size ≤ u64_sub q.writeIndex q.readIndex)
    (hlen : q.packets.length = q.size) (hpos : 0 < q.size) :
    slot_at (try_enqueue_packet q f).2 q.writeIndex =
      f (slot_at q q.writeIndex) := by
  have hidx : q.writeIndex &&& (q.size - 1) < q.packets.length := by
    have h1 : q.writeIndex &&& (q.size - 1) ≤ q.size - 1 := Nat.and_le_right
    omega
  rw [teq_snd_ok q f hnotfull]
  simp [slot_at, List.getD, List.getElem?_set, hidx]

/-- C3: `try_enqueue_kernel_dispatch` fails with `WorkgroupDimSize` when a
workgroup dimension is 0, with `GridDimSize` when the workgroup dimensions
pass but a grid dimension is 0, and any such validation failure (any error
other than `Full`) happens before a write index is consumed: the write
index, read index, packet array and all signal values (in particular the
doorbell) are unchanged. -/
theorem C3_validation_before_reserve (q : QueueState) (d : DispatchPacket) :
    ((d.workgroup_size.1 = 0 ∨ d.workgroup_size.2.1 = 0 ∨
        d.workgroup_size.2.2 = 0) →
      (try_enqueue_kernel_dispatch q d).1 =
        Except.error QueueError.WorkgroupDimSize) ∧
    ((d.workgroup_size.1 ≠ 0 ∧ d.workgroup_size.2.1 ≠ 0 ∧
        d.workgroup_size.2.2 ≠ 0) →
      (d.grid_size.1 = 0 ∨ d.grid_size.2.1 = 0 ∨ d.grid_size.2.2 = 0) →
      (try_enqueue_kernel_dispatch q d).1 =
        Except.error QueueError.GridDimSize) ∧
    (∀ e : QueueError, e ≠ QueueError.Full →
      (try_enqueue_kernel_dispatch q d).1 = Except.error e →
      ((try_enqueue_kernel_dispatch q d).2.writeIndex = q.writeIndex ∧
       (try_enqueue_kernel_dispatch q d).2.readIndex = q.readIndex ∧
       (try_enqueue_kernel_dispatch q d).2.packets = q.packets ∧
       ∀ h : Nat,
         (try_enqueue_kernel_dispatch q d).2.signals h = q.signals h)) := by
  refine ⟨?_, ?_, ?_⟩
  · intro h
    simp [try_enqueue_kernel_dispatch, DispatchPacket.check, h]
  · intro hwg hg
    simp [try_enqueue_kernel_dispatch, DispatchPacket.check,
      hwg.1, hwg.2.1, hwg.2.2, hg]
  · intro e he hres
    cases hchk : d.check with
    | error e' =>
      simp [try_enqueue_kernel_dispatch, hchk]
    | ok u =>
      cases u
      exfalso
      simp only [try_enqueue_kernel_dispatch, hchk] at hres
      rw [teq_fst] at hres
      by_cases hf : q.size ≤ u64_sub q.writeIndex q.readIndex
      · simp [hf] at hres
        exact he hres.symm
      · simp [hf] at hres

/-- A dispatch descriptor with a zero workgroup dimension. -/
def d_wg0 : DispatchPacket :=
  { workgroup_size := (0, 1, 1), grid_size := (1, 1, 1),
    private_segment_size := 0, group_segment_size := 0, ordered := false,
    scaquire_scope := FenceScope.System, screlease_scope := FenceScope.System,
    kernel_object := 0, kernel_args := 0, completion_signal := none }

/-- A dispatch descriptor with a zero grid dimension. -/
def d_g0 : DispatchPacket :=
  { workgroup_size := (1, 1, 1), grid_size := (0, 1, 1),
    private_segment_size := 0, group_segment_size := 0, ordered := false,
    scaquire_scope := FenceScope.System, screlease_scope := FenceScope.System,
    kernel_object := 0, kernel_args := 0, completion_signal := none }

/-- Witness for C3 on the concrete queue `q0` and descriptors with a zero
workgroup (resp. grid) dimension. -/
theorem C3_validation_before_reserve_witness :
    (try_enqueue_kernel_dispatch q0 d_wg0).1 =
      Except.error QueueError.WorkgroupDimSize ∧
    (try_enqueue_kernel_dispatch q0 d_g0).1 =
      Except.error QueueError.GridDimSize ∧
    (try_enqueue_kernel_dispatch q0 d_wg0).2.writeIndex = q0.writeIndex :=
  ⟨(C3_validation_before_reserve q0 d_wg0).1 (by decide),
   (C3_validation_before_reserve q0 d_g0).2.1 (by decide) (by decide),
   ((C3_validation_before_reserve q0 d_wg0).2.2 QueueError.WorkgroupDimSize
      (by decide) ((C3_validation_before_reserve q0 d_wg0).1 (by decide))).1⟩

/-- The C2 scenario dispatch: grid dims `(256,1,1)`, workgroup dims
`(8,1,1)`. -/
def c2_dispatch : DispatchPacket :=
  { workgroup_size := (8, 1, 1), grid_size := (256, 1, 1),
    private_segment_size := 0, group_segment_size := 0, ordered := false,
    scaquire_scope := FenceScope.System, screlease_scope := FenceScope.System,
    kernel_object := 42, kernel_args := 1000, completion_signal := none }

/-- The state after `n` submissions of `c2_dispatch` to the empty
capacity-4 single-producer queue `q0`. -/
def c2_enqN : Nat → QueueState
  | 0 => q0
  | n + 1 => (try_enqueue_kernel_dispatch (c2_enqN n) c2_dispatch).2

/-- C2 counterexample: in the claimed scenario (capacity 4, single-producer
queue, 4 accepted dispatches, a 5th attempt returning `Full`, then the
consumer draining exactly one packet), repeating the enqueue attempt does
NOT succeed: the failed 5th attempt already consumed write index 4, so the
occupancy seen by the retry is `5 - 1 = 4 ≥ 4` and it returns `Full`
again. -/
theorem C2_counterexample :
    ((try_enqueue_kernel_dispatch (c2_enqN 0) c2_dispatch).1 =
      Except.ok ()) ∧
    ((try_enqueue_kernel_dispatch (c2_enqN 1) c2_dispatch).1 =
      Except.ok ()) ∧
    ((try_enqueue_kernel_dispatch (c2_enqN 2) c2_dispatch).1 =
      Except.ok ()) ∧
    ((try_enqueue_kernel_dispatch (c2_enqN 3) c2_dispatch).1 =
      Except.ok ()) ∧
    ((try_enqueue_kernel_dispatch (c2_enqN 4) c2_dispatch).1 =
      Except.error QueueError.Full) ∧
    ((drain_step (c2_enqN 5) (c2_enqN 5).readIndex).readIndex = 1) ∧
    ((try_enqueue_kernel_dispatch
        (drain_step (c2_enqN 5) (c2_enqN 5).readIndex) c2_dispatch).1 ≠
      Except.ok ()) :=
  ⟨rfl, rfl, rfl, rfl, rfl, rfl, fun h => by
    have h0 : (try_enqueue_kernel_dispatch
        (drain_step (c2_enqN 5) (c2_enqN 5).readIndex) c2_dispatch).1 =
        Except.error QueueError.Full := rfl
    rw [h0] at h
    exact Except.noConfusion h⟩

/-- C2 amended: the 4 submissions succeed and the 5th returns `Full`; but
after the consumer drains exactly one packet (one `SoftQueue::process`
iteration, advancing the read index to 1), repeating the enqueue attempt
returns `Full` again, because the write index reserved by the failed 5th
attempt is never reclaimed. -/
theorem C2_scenario_after_drain :
    ((try_enqueue_kernel_dispatch (c2_enqN 0) c2_dispatch).1 =
      Except.ok ()) ∧
    ((try_enqueue_kernel_dispatch (c2_enqN 1) c2_dispatch).1 =
      Except.ok ()) ∧
    ((try_enqueue_kernel_dispatch (c2_enqN 2) c2_dispatch).1 =
      Except.ok ()) ∧
    ((try_enqueue_kernel_dispatch (c2_enqN 3) c2_dispatch).1 =
      Except.ok ()) ∧
    ((try_enqueue_kernel_dispatch (c2_enqN 4) c2_dispatch).1 =
      Except.error QueueError.Full) ∧
    (SoftQueue.process 1 (c2_enqN 5) (fun _ => ProcessLoopResult.Exit ())
      = some ((), drain_step (c2_enqN 5) (c2_enqN 5).readIndex)) ∧
    ((drain_step (c2_enqN 5) (c2_enqN 5).readIndex).readIndex = 1) ∧
    ((try_enqueue_kernel_dispatch
        (drain_step (c2_enqN 5) (c2_enqN 5).readIndex) c2_dispatch).1 =
      Except.error QueueError.Full) :=
  ⟨rfl, rfl, rfl, rfl, rfl, rfl, rfl, rfl⟩

/-- The C7 counterexample dispatch: grid dims `(1,2,1)` have exactly one
non-unit dimension. -/
def c7_dispatch : DispatchPacket :=
  { workgroup_size := (1, 1, 1), grid_size := (1, 2, 1),
    private_segment_size := 0, group_segment_size := 0, ordered := false,
    scaquire_scope := FenceScope.System, screlease_scope := FenceScope.System,
    kernel_object := 0, kernel_args := 0, completion_signal := none }

/-- C7 counterexample: for grid `(1,2,1)` the count of non-unit grid
dimensions is 1, yet the value folded into the `setup` field of the
published packet is `2 <<< DIMENSIONS`, not `1 <<< DIMENSIONS`. -/
theorem C7_counterexample :
    ((if c7_dispatch.grid_size.1 = 1 then 0 else 1) +
     (if c7_dispatch.grid_size.2.1 = 1 then 0 else 1) +
     (if c7_dispatch.grid_size.2.2 = 1 then 0 else 1) = 1) ∧
    ((try_enqueue_kernel_dispatch q0 c7_dispatch).1 = Except.ok ()) ∧
    ((slot_at (try_enqueue_kernel_dispatch q0 c7_dispatch).2 0).setup
      = 2 <<< HSA_KERNEL_DISPATCH_PACKET_SETUP_DIMENSIONS) ∧
    ((2 : Nat) <<< HSA_KERNEL_DISPATCH_PACKET_SETUP_DIMENSIONS ≠
      (1 : Nat) <<< HSA_KERNEL_DISPATCH_PACKET_SETUP_DIMENSIONS) :=
  ⟨rfl, rfl, rfl, by decide⟩

/-- C7 amended: the dimensionality folded into the `setup` field is the
1-based position of the LAST non-unit grid dimension (0 when all three are
1): 0 for grid `(1,1,1)`; 1 when the y and z dims are 1 and x is not; 2
when the z dim is 1 and y is not; 3 when the z dim is not 1. -/
theorem C7_setup_dimensions (q : QueueState) (d : DispatchPacket)
    (hwg1 : d.workgroup_size.1 ≠ 0) (hwg2 : d.workgroup_size.2.1 ≠ 0)
    (hwg3 : d.workgroup_size.2.2 ≠ 0) (hg1 : d.grid_size.1 ≠ 0)
    (hg2 : d.grid_size.2.1 ≠ 0) (hg3 : d.grid_size.2.2 ≠ 0)
    (hnotfull : u64_sub q.writeIndex q.readIndex < q.size)
    (hlen : q.packets.length = q.size) :
    (∀ p p' : Slot, (d.init_packet p).2 = (d.init_packet p').2) ∧
    (∀ p : Slot,
      (d.init_packet p).2 ≤ 3 ∧
      (d.grid_size.1 = 1 ∧ d.grid_size.2.1 = 1 ∧ d.grid_size.2.2 = 1 →
        (d.init_packet p).2 = 0) ∧
      (d.grid_size.1 ≠ 1 ∧ d.grid_size.2.1 = 1 ∧ d.grid_size.2.2 = 1 →
        (d.init_packet p).2 = 1) ∧
      (d.grid_size.2.1 ≠ 1 ∧ d.grid_size.2.2 = 1 →
        (d.init_packet p).2 = 2) ∧
      (d.grid_size.2.2 ≠ 1 → (d.init_packet p).2 = 3)) ∧
    ((slot_at (try_enqueue_kernel_dispatch q d).2 q.writeIndex).setup
      = (d.init_packet default).2 <<<
          HSA_KERNEL_DISPATCH_PACKET_SETUP_DIMENSIONS) := by
  have hn : ∀ p : Slot, (d.init_packet p).2 =
      (if d.grid_size.1 = 1 ∧ d.grid_size.2.1 = 1 ∧ d.grid_size.2.2 = 1
        then 0
        else if d.grid_size.2.1 = 1 ∧ d.grid_size.2.2 = 1 then 1
        else if d.grid_size.2.2 = 1 then 2
        else 3) := fun p => rfl
  have hle : ∀ p : Slot, (d.init_packet p).2 ≤ 3 := by
    intro p
    rw [hn]
    split
    · omega
    · split
      · omega
      · split <;> omega
  refine ⟨fun p p' => by rw [hn, hn], ?_, ?_⟩
  · intro p
    refine ⟨hle p, ?_, ?_, ?_, ?_⟩
    · intro hc
      rw [hn]
      simp [hc.1, hc.2.1, hc.2.2]
    · intro hc
      rw [hn]
      simp [hc.1, hc.2.1, hc.2.2]
    · intro hc
      rw [hn]
      simp [hc.1, hc.2]
    · intro hc
      rw [hn]
      simp [hc]
  · have hchk : d.check = Except.ok () := by
      simp [DispatchPacket.check, hwg1, hwg2, hwg3, hg1, hg2, hg3]
    have hnot : ¬ q.size ≤ u64_sub q.writeIndex q.readIndex :=
      Nat.not_le_of_lt hnotfull
    have hpos : 0 < q.size := by omega
    simp only [try_enqueue_kernel_dispatch, hchk]
    rw [teq_ok_slot q _ hnot hlen hpos]
    simp only [packet_store_rel]
    have h1 := hn ((d.init_packet (packet_store_rel (slot_at q q.writeIndex)
      (header HSA_PACKET_TYPE_INVALID FenceScope.None FenceScope.None true)
      0)).1)
    have h2 := hle (packet_store_rel (slot_at q q.writeIndex)
      (header HSA_PACKET_TYPE_INVALID FenceScope.None FenceScope.None true) 0)
    rw [hn, hn]
    simp only [HSA_KERNEL_DISPATCH_PACKET_SETUP_DIMENSIONS,
      Nat.shiftLeft_zero]
    split
    · decide
    · split
      · decide
      · split <;> decide

/-- Witness for C7 amended at a concrete valid dispatch on `q0`. -/
theorem C7_setup_dimensions_witness :
    (∀ p p' : Slot,
      (c2_dispatch.init_packet p).2 = (c2_dispatch.init_packet p').2) ∧
    (∀ p : Slot,
      (c2_dispatch.init_packet p).2 ≤ 3 ∧
      (c2_dispatch.grid_size.1 = 1 ∧ c2_dispatch.grid_size.2.1 = 1 ∧
          c2_dispatch.grid_size.2.2 = 1 →
        (c2_dispatch.init_packet p).2 = 0) ∧
      (c2_dispatch.grid_size.1 ≠ 1 ∧ c2_dispatch.grid_size.2.1 = 1 ∧
          c2_dispatch.grid_size.2.2 = 1 →
        (c2_dispatch.init_packet p).2 = 1) ∧
      (c2_dispatch.grid_size.2.1 ≠ 1 ∧ c2_dispatch.grid_size.2.2 = 1 →
        (c2_dispatch.init_packet p).2 = 2) ∧
      (c2_dispatch.grid_size.2.2 ≠ 1 →
        (c2_dispatch.init_packet p).2 = 3)) ∧
    ((slot_at (try_enqueue_kernel_dispatch q0 c2_dispatch).2
        q0.writeIndex).setup
      = (c2_dispatch.init_packet default).2 <<<
          HSA_KERNEL_DISPATCH_PACKET_SETUP_DIMENSIONS) :=
  C7_setup_dimensions q0 c2_dispatch (by decide) (by decide) (by decide)
    (by decide) (by decide) (by decide) (by decide) (by decide)

theorem drain_step_eq (q : QueueState) (r : Nat) :
    drain_step q r =
      if (q.packets.getD (r &&& (q.size - 1)) default).completion_signal ≠ 0
      then
        { kind := q.kind, size := q.size, writeIndex := q.writeIndex,
          readIndex := (r + 1) % U64,
          packets := (q.packets.set (r &&& (q.size - 1))
            (packet_store_rel (q.packets.getD (r &&& (q.size - 1)) default)
              (header HSA_PACKET_TYPE_INVALID FenceScope.System
                FenceScope.System false)
              (q.packets.getD (r &&& (q.size - 1)) default).setup)),
          doorbell := q.doorbell,
          signals := (Function.update q.signals
            (q.packets.getD (r &&& (q.size - 1)) default).completion_signal
            (q.signals (q.packets.getD (r &&& (q.size - 1))
              default).completion_signal - 1)) }
      else
        { kind := q.kind, size := q.size, writeIndex := q.writeIndex,
          readIndex := (r + 1) % U64,
          packets := (q.packets.set (r &&& (q.size - 1))
            (packet_store_rel (q.packets.getD (r &&& (q.size - 1)) default)
              (header HSA_PACKET_TYPE_INVALID FenceScope.System
                FenceScope.System false)
              (q.packets.getD (r &&& (q.size - 1)) default).setup)),
          doorbell := q.doorbell, signals := q.signals } := by
  simp only [drain_step]
  split <;> rfl

theorem drain_step_readIndex (q : QueueState) (r : Nat) :
    (drain_step q r).readIndex = (r + 1) % U64 := by
  rw [drain_step_eq]
  split <;> rfl

theorem drain_step_packets (q : QueueState) (r : Nat) :
    (drain_step q r).packets =
      q.packets.set (r &&& (q.size - 1))
        (packet_store_rel (q.packets.getD (r &&& (q.size - 1)) default)
          (header HSA_PACKET_TYPE_INVALID FenceScope.System FenceScope.System
            false)
          (q.packets.getD (r &&& (q.size - 1)) default).setup) := by
  rw [drain_step_eq]
  split <;> rfl

theorem drain_step_signals_default (q : QueueState) (r : Nat)
    (hc : (slot_at q r).completion_signal = 0) :
    ∀ h : Nat, (drain_step q r).signals h = q.signals h := by
  intro h
  simp only [slot_at] at hc
  rw [drain_step_eq, if_neg (not_ne_iff.mpr hc)]

theorem drain_step_signals_dec (q : QueueState) (r : Nat)
    (hc : (slot_at q r).completion_signal ≠ 0) :
    (drain_step q r).signals (slot_at q r).completion_signal
      = q.signals (slot_at q r).completion_signal - 1 ∧
    ∀ h : Nat, h ≠ (slot_at q r).completion_signal →
      (drain_step q r).signals h = q.signals h := by
  simp only [slot_at] at hc ⊢
  constructor
  · rw [drain_step_eq, if_pos hc]
    exact Function.update_same _ _ _
  · intro h hne
    rw [drain_step_eq, if_pos hc]
    exact Function.update_noteq hne _ _

theorem drain_step_invalidates (q : QueueState) (r : Nat)
    (hlen : q.packets.length = q.size) (hpos : 0 < q.size) :
    header_type ((drain_step q r).packets.getD (r &&& (q.size - 1))
      default).header = HSA_PACKET_TYPE_INVALID := by
  have hidx : r &&& (q.size - 1) < q.packets.length := by
    have h1 : r &&& (q.size - 1) ≤ q.size - 1 := Nat.and_le_right
    omega
  rw [drain_step_packets]
  simp [List.getD, List.getElem?_set, hidx, packet_store_rel]
  decide

/-- C5: one iteration of the consumer loop, after the handler has run on
the packet at slot `read_index & (capacity - 1)`: if that packet's
completion signal is non-default the signal's value drops by exactly 1
(all other signals untouched), if it is the default handle no signal
changes, the slot's header is overwritten so its type decodes as
`Invalid`, and the stored read index advances by exactly 1; the loop
equation ties this cleanup to `process_loop`. -/
theorem C5_consumer_iteration (q : QueueState) (r : Nat)
    (hlen : q.packets.length = q.size) (hpos : 0 < q.size)
    (hdoor : toI64 r ≤ q.signals q.doorbell) :
    ((slot_at q r).completion_signal ≠ 0 →
      (drain_step q r).signals (slot_at q r).completion_signal
        = q.signals (slot_at q r).completion_signal - 1 ∧
      ∀ h : Nat, h ≠ (slot_at q r).completion_signal →
        (drain_step q r).signals h = q.signals h) ∧
    ((slot_at q r).completion_signal = 0 →
      ∀ h : Nat, (drain_step q r).signals h = q.signals h) ∧
    (header_type ((drain_step q r).packets.getD (r &&& (q.size - 1))
      default).header = HSA_PACKET_TYPE_INVALID) ∧
    ((drain_step q r).readIndex = (r + 1) % U64) ∧
    (∀ (V : Type) (f : Slot → ProcessLoopResult V) (fuel : Nat),
      process_loop (fuel + 1) q r f =
        match f (slot_at q r) with
        | ProcessLoopResult.Exit v => some (v, drain_step q r)
        | ProcessLoopResult.Continue =>
          process_loop fuel (drain_step q r) ((r + 1) % U64) f) := by
  refine ⟨drain_step_signals_dec q r, drain_step_signals_default q r,
    drain_step_invalidates q r hlen hpos, drain_step_readIndex q r, ?_⟩
  intro V f fuel
  simp only [process_loop]
  rw [if_neg (not_lt.mpr hdoor)]
  rfl

/-- Witness for C5 on the concrete queue `q0` at read index 0. -/
theorem C5_consumer_iteration_witness :
    ((slot_at q0 0).completion_signal ≠ 0 →
      (drain_step q0 0).signals (slot_at q0 0).completion_signal
        = q0.signals (slot_at q0 0).completion_signal - 1 ∧
      ∀ h : Nat, h ≠ (slot_at q0 0).completion_signal →
        (drain_step q0 0).signals h = q0.signals h) ∧
    ((slot_at q0 0).completion_signal = 0 →
      ∀ h : Nat, (drain_step q0 0).signals h = q0.signals h) ∧
    (header_type ((drain_step q0 0).packets.getD (0 &&& (q0.size - 1))
      default).header = HSA_PACKET_TYPE_INVALID) ∧
    ((drain_step q0 0).readIndex = (0 + 1) % U64) ∧
    (∀ (V : Type) (f : Slot → ProcessLoopResult V) (fuel : Nat),
      process_loop (fuel + 1) q0 0 f =
        match f (slot_at q0 0) with
        | ProcessLoopResult.Exit v => some (v, drain_step q0 0)
        | ProcessLoopResult.Continue =>
          process_loop fuel (drain_step q0 0) ((0 + 1) % U64) f) :=
  C5_consumer_iteration q0 0 rfl (by decide) (by decide)

/-- C10: when the handler returns `Exit v` the loop still performs the full
per-packet cleanup (completion signal decremented when non-default, header
restamped `Invalid`, read index advanced by 1) before returning `v`; a
handler returning `Continue` produces exactly the same post-iteration
state, the two differing only in whether the loop iterates again. -/
theorem C10_exit_vs_continue (V : Type) (q : QueueState) (r fuel : Nat)
    (f g : Slot → ProcessLoopResult V) (v : V)
    (hdoor : toI64 r ≤ q.signals q.doorbell)
    (hexit : f (slot_at q r) = ProcessLoopResult.Exit v)
    (hcont : g (slot_at q r) = ProcessLoopResult.Continue)
    (hlen : q.packets.length = q.size) (hpos : 0 < q.size) :
    (process_loop (fuel + 1) q r f = some (v, drain_step q r)) ∧
    (process_loop (fuel + 1) q r g =
      process_loop fuel (drain_step q r) ((r + 1) % U64) g) ∧
    ((slot_at q r).completion_signal ≠ 0 →
      (drain_step q r).signals (slot_at q r).completion_signal
        = q.signals (slot_at q r).completion_signal - 1) ∧
    (header_type ((drain_step q r).packets.getD (r &&& (q.size - 1))
      default).header = HSA_PACKET_TYPE_INVALID) ∧
    ((drain_step q r).readIndex = (r + 1) % U64) := by
  refine ⟨?_, ?_, fun hc => (drain_step_signals_dec q r hc).1,
    drain_step_invalidates q r hlen hpos, drain_step_readIndex q r⟩
  · simp only [process_loop]
    rw [if_neg (not_lt.mpr hdoor)]
    have hx : f (q.packets.getD (r &&& (q.size - 1)) default) =
        ProcessLoopResult.Exit v := hexit
    rw [hx]
  · simp only [process_loop]
    rw [if_neg (not_lt.mpr hdoor)]
    have hx : g (q.packets.getD (r &&& (q.size - 1)) default) =
        ProcessLoopResult.Continue := hcont
    rw [hx]

/-- Witness for C10 on `q0`: an `Exit`-handler and a `Continue`-handler at
read index 0. -/
theorem C10_exit_vs_continue_witness :
    (process_loop (0 + 1) q0 0 (fun _ => ProcessLoopResult.Exit 42)
      = some (42, drain_step q0 0)) ∧
    (process_loop (0 + 1) q0 0 (fun _ => ProcessLoopResult.Continue)
      = process_loop 0 (drain_step q0 0) ((0 + 1) % U64)
          (fun _ => (ProcessLoopResult.Continue : ProcessLoopResult Nat))) ∧
    ((slot_at q0 0).completion_signal ≠ 0 →
      (drain_step q0 0).signals (slot_at q0 0).completion_signal
        = q0.signals (slot_at q0 0).completion_signal - 1) ∧
    (header_type ((drain_step q0 0).packets.getD (0 &&& (q0.size - 1))
      default).header = HSA_PACKET_TYPE_INVALID) ∧
    ((drain_step q0 0).readIndex = (0 + 1) % U64) :=
  C10_exit_vs_continue Nat q0 0 0 (fun _ => ProcessLoopResult.Exit 42)
    (fun _ => ProcessLoopResult.Continue) 42 (by decide) rfl rfl rfl
    (by decide)

/-- C6 counterexample: enqueueing an AND-barrier with a completion signal
present (`some 7`) publishes a header whose ordered/barrier bit is CLEAR
(the code passes `completion.is_none()` as the `ordered` argument), so the
bit is not set exactly when a completion signal is present. -/
theorem C6_counterexample :
    Option.isSome (some 7 : Option Nat) = true ∧
    header_barrier_bit
      ((try_enqueue_barrier_and q0 [] (some 7)).2.packets.getD 0
        default).header = 0 ∧
    header_barrier_bit
      ((try_enqueue_barrier_and q0 [] none).2.packets.getD 0
        default).header = 1 :=
  ⟨rfl, rfl, rfl⟩

/-- C6 amended: both barrier enqueues write all five dependency slots in
order from the caller's iterator (default/null handles beyond its length),
set the completion-signal field exactly when a completion signal is
supplied, and publish a header carrying the barrier type,
`FenceScope::None` for both fence scopes, and the ordered bit set exactly
when NO completion signal is supplied (the code passes
`completion.is_none()` as `ordered`). -/
theorem C6_barrier_enqueues (q : QueueState) (deps : List Nat)
    (completion : Option Nat)
    (hnotfull : u64_sub q.writeIndex q.readIndex < q.size)
    (hlen : q.packets.length = q.size) :
    ((try_enqueue_barrier_and q deps completion).1 = Except.ok ()) ∧
    ((try_enqueue_barrier_or q deps completion).1 = Except.ok ()) ∧
    ((slot_at (try_enqueue_barrier_and q deps completion).2
        q.writeIndex).dep_signal
      = (List.range 5).map (fun i => deps.getD i 0)) ∧
    ((slot_at (try_enqueue_barrier_or q deps completion).2
        q.writeIndex).dep_signal
      = (List.range 5).map (fun i => deps.getD i 0)) ∧
    (∀ s : Nat, completion = some s →
      (slot_at (try_enqueue_barrier_and q deps completion).2
        q.writeIndex).completion_signal = s ∧
      (slot_at (try_enqueue_barrier_or q deps completion).2
        q.writeIndex).completion_signal = s) ∧
    (completion = none →
      (slot_at (try_enqueue_barrier_and q deps completion).2
        q.writeIndex).completion_signal
        = (slot_at q q.writeIndex).completion_signal ∧
      (slot_at (try_enqueue_barrier_or q deps completion).2
        q.writeIndex).completion_signal
        = (slot_at q q.writeIndex).completion_signal) ∧
    (header_type (slot_at (try_enqueue_barrier_and q deps completion).2
        q.writeIndex).header = HSA_PACKET_TYPE_BARRIER_AND) ∧
    (header_type (slot_at (try_enqueue_barrier_or q deps completion).2
        q.writeIndex).header = HSA_PACKET_TYPE_BARRIER_OR) ∧
    (header_scacquire (slot_at (try_enqueue_barrier_and q deps completion).2
        q.writeIndex).header = HSA_FENCE_SCOPE_NONE) ∧
    (header_screlease (slot_at (try_enqueue_barrier_and q deps completion).2
        q.writeIndex).header = HSA_FENCE_SCOPE_NONE) ∧
    (header_scacquire (slot_at (try_enqueue_barrier_or q deps completion).2
        q.writeIndex).header = HSA_FENCE_SCOPE_NONE) ∧
    (header_screlease (slot_at (try_enqueue_barrier_or q deps completion).2
        q.writeIndex).header = HSA_FENCE_SCOPE_NONE) ∧
    (header_barrier_bit (slot_at (try_enqueue_barrier_and q deps
        completion).2 q.writeIndex).header
      = if completion.isNone then 1 else 0) ∧
    (header_barrier_bit (slot_at (try_enqueue_barrier_or q deps
        completion).2 q.writeIndex).header
      = if completion.isNone then 1 else 0) := by
  have hnot : ¬ q.size ≤ u64_sub q.writeIndex q.readIndex :=
    Nat.not_le_of_lt hnotfull
  have hpos : 0 < q.size := by omega
  have hand : (try_enqueue_barrier_and q deps completion).1 = Except.ok ()
      := by
    simp only [try_enqueue_barrier_and]
    rw [teq_fst, if_neg hnot]
  have hor : (try_enqueue_barrier_or q deps completion).1 = Except.ok ()
      := by
    simp only [try_enqueue_barrier_or]
    rw [teq_fst, if_neg hnot]
  cases completion with
  | none =>
    have hsa : slot_at (try_enqueue_barrier_and q deps none).2 q.writeIndex
        = packet_store_rel
          { packet_store_rel (slot_at q q.writeIndex)
              (header HSA_PACKET_TYPE_INVALID FenceScope.None FenceScope.None
                true) 0 with
            dep_signal := ((List.range 5).map (fun i => deps.getD i 0)) }
          (header HSA_PACKET_TYPE_BARRIER_AND FenceScope.None FenceScope.None
            true) 0 := by
      simp only [try_enqueue_barrier_and]
      rw [teq_ok_slot q _ hnot hlen hpos]
      rfl
    have hsb : slot_at (try_enqueue_barrier_or q deps none).2 q.writeIndex
        = packet_store_rel
          { packet_store_rel (slot_at q q.writeIndex)
              (header HSA_PACKET_TYPE_INVALID FenceScope.None FenceScope.None
                true) 0 with
            dep_signal := ((List.range 5).map (fun i => deps.getD i 0)) }
          (header HSA_PACKET_TYPE_BARRIER_OR FenceScope.None FenceScope.None
            true) 0 := by
      simp only [try_enqueue_barrier_or]
      rw [teq_ok_slot q _ hnot hlen hpos]
      rfl
    refine ⟨hand, hor, ?_, ?_, ?_, ?_, ?_, ?_, ?_, ?_, ?_, ?_, ?_, ?_⟩
    · rw [hsa]
      exact rfl
    · rw [hsb]
      exact rfl
    · intro s hs
      exact Option.noConfusion hs
    · intro _
      constructor
      · rw [hsa]
        exact rfl
      · rw [hsb]
        exact rfl
    · rw [hsa]
      simp [packet_store_rel, header_type, header_scacquire, header_screlease,
        header_barrier_bit, header, scope_to_enum, HSA_PACKET_TYPE_INVALID,
        HSA_PACKET_TYPE_BARRIER_AND, HSA_PACKET_TYPE_BARRIER_OR,
        HSA_PACKET_HEADER_TYPE, HSA_PACKET_HEADER_BARRIER,
        HSA_PACKET_HEADER_SCACQUIRE_FENCE_SCOPE,
        HSA_PACKET_HEADER_SCRELEASE_FENCE_SCOPE, HSA_FENCE_SCOPE_NONE,
        HSA_FENCE_SCOPE_AGENT, HSA_FENCE_SCOPE_SYSTEM]
      all_goals decide
    · rw [hsb]
      simp [packet_store_rel, header_type, header_scacquire, header_screlease,
        header_barrier_bit, header, scope_to_enum, HSA_PACKET_TYPE_INVALID,
        HSA_PACKET_TYPE_BARRIER_AND, HSA_PACKET_TYPE_BARRIER_OR,
        HSA_PACKET_HEADER_TYPE, HSA_PACKET_HEADER_BARRIER,
        HSA_PACKET_HEADER_SCACQUIRE_FENCE_SCOPE,
        HSA_PACKET_HEADER_SCRELEASE_FENCE_SCOPE, HSA_FENCE_SCOPE_NONE,
        HSA_FENCE_SCOPE_AGENT, HSA_FENCE_SCOPE_SYSTEM]
      all_goals decide
    · rw [hsa]
      simp [packet_store_rel, header_type, header_scacquire, header_screlease,
        header_barrier_bit, header, scope_to_enum, HSA_PACKET_TYPE_INVALID,
        HSA_PACKET_TYPE_BARRIER_AND, HSA_PACKET_TYPE_BARRIER_OR,
        HSA_PACKET_HEADER_TYPE, HSA_PACKET_HEADER_BARRIER,
        HSA_PACKET_HEADER_SCACQUIRE_FENCE_SCOPE,
        HSA_PACKET_HEADER_SCRELEASE_FENCE_SCOPE, HSA_FENCE_SCOPE_NONE,
        HSA_FENCE_SCOPE_AGENT, HSA_FENCE_SCOPE_SYSTEM]
      all_goals decide
    · rw [hsa]
      simp [packet_store_rel, header_type, header_scacquire, header_screlease,
        header_barrier_bit, header, scope_to_enum, HSA_PACKET_TYPE_INVALID,
        HSA_PACKET_TYPE_BARRIER_AND, HSA_PACKET_TYPE_BARRIER_OR,
        HSA_PACKET_HEADER_TYPE, HSA_PACKET_HEADER_BARRIER,
        HSA_PACKET_HEADER_SCACQUIRE_FENCE_SCOPE,
        HSA_PACKET_HEADER_SCRELEASE_FENCE_SCOPE, HSA_FENCE_SCOPE_NONE,
        HSA_FENCE_SCOPE_AGENT, HSA_FENCE_SCOPE_SYSTEM]
      all_goals decide
    · rw [hsb]
      simp [packet_store_rel, header_type, header_scacquire, header_screlease,
        header_barrier_bit, header, scope_to_enum, HSA_PACKET_TYPE_INVALID,
        HSA_PACKET_TYPE_BARRIER_AND, HSA_PACKET_TYPE_BARRIER_OR,
        HSA_PACKET_HEADER_TYPE, HSA_PACKET_HEADER_BARRIER,
        HSA_PACKET_HEADER_SCACQUIRE_FENCE_SCOPE,
        HSA_PACKET_HEADER_SCRELEASE_FENCE_SCOPE, HSA_FENCE_SCOPE_NONE,
        HSA_FENCE_SCOPE_AGENT, HSA_FENCE_SCOPE_SYSTEM]
      all_goals decide
    · rw [hsb]
      simp [packet_store_rel, header_type, header_scacquire, header_screlease,
        header_barrier_bit, header, scope_to_enum, HSA_PACKET_TYPE_INVALID,
        HSA_PACKET_TYPE_BARRIER_AND, HSA_PACKET_TYPE_BARRIER_OR,
        HSA_PACKET_HEADER_TYPE, HSA_PACKET_HEADER_BARRIER,
        HSA_PACKET_HEADER_SCACQUIRE_FENCE_SCOPE,
        HSA_PACKET_HEADER_SCRELEASE_FENCE_SCOPE, HSA_FENCE_SCOPE_NONE,
        HSA_FENCE_SCOPE_AGENT, HSA_FENCE_SCOPE_SYSTEM]
      all_goals decide
    · rw [hsa]
      simp [packet_store_rel, header_type, header_scacquire, header_screlease,
        header_barrier_bit, header, scope_to_enum, HSA_PACKET_TYPE_INVALID,
        HSA_PACKET_TYPE_BARRIER_AND, HSA_PACKET_TYPE_BARRIER_OR,
        HSA_PACKET_HEADER_TYPE, HSA_PACKET_HEADER_BARRIER,
        HSA_PACKET_HEADER_SCACQUIRE_FENCE_SCOPE,
        HSA_PACKET_HEADER_SCRELEASE_FENCE_SCOPE, HSA_FENCE_SCOPE_NONE,
        HSA_FENCE_SCOPE_AGENT, HSA_FENCE_SCOPE_SYSTEM]
      all_goals decide
    · rw [hsb]
      simp [packet_store_rel, header_type, header_scacquire, header_screlease,
        header_barrier_bit, header, scope_to_enum, HSA_PACKET_TYPE_INVALID,
        HSA_PACKET_TYPE_BARRIER_AND, HSA_PACKET_TYPE_BARRIER_OR,
        HSA_PACKET_HEADER_TYPE, HSA_PACKET_HEADER_BARRIER,
        HSA_PACKET_HEADER_SCACQUIRE_FENCE_SCOPE,
        HSA_PACKET_HEADER_SCRELEASE_FENCE_SCOPE, HSA_FENCE_SCOPE_NONE,
        HSA_FENCE_SCOPE_AGENT, HSA_FENCE_SCOPE_SYSTEM]
      all_goals decide
  | some s =>
    have hsa : slot_at (try_enqueue_barrier_and q deps (some s)).2
        q.writeIndex
        = packet_store_rel
          { packet_store_rel (slot_at q q.writeIndex)
              (header HSA_PACKET_TYPE_INVALID FenceScope.None FenceScope.None
                false) 0 with
            completion_signal := s
            dep_signal := ((List.range 5).map (fun i => deps.getD i 0)) }
          (header HSA_PACKET_TYPE_BARRIER_AND FenceScope.None FenceScope.None
            false) 0 := by
      simp only [try_enqueue_barrier_and]
      rw [teq_ok_slot q _ hnot hlen hpos]
      rfl
    have hsb : slot_at (try_enqueue_barrier_or q deps (some s)).2
        q.writeIndex
        = packet_store_rel
          { packet_store_rel (slot_at q q.writeIndex)
              (header HSA_PACKET_TYPE_INVALID FenceScope.None FenceScope.None
                false) 0 with
            completion_signal := s
            dep_signal := ((List.range 5).map (fun i => deps.getD i 0)) }
          (header HSA_PACKET_TYPE_BARRIER_OR FenceScope.None FenceScope.None
            false) 0 := by
      simp only [try_enqueue_barrier_or]
      rw [teq_ok_slot q _ hnot hlen hpos]
      rfl
    refine ⟨hand, hor, ?_, ?_, ?_, ?_, ?_, ?_, ?_, ?_, ?_, ?_, ?_, ?_⟩
    · rw [hsa]
      exact rfl
    · rw [hsb]
      exact rfl
    · intro s' hs
      cases hs
      constructor
      · rw [hsa]
        exact rfl
      · rw [hsb]
        exact rfl
    · intro hn
      exact Option.noConfusion hn
    · rw [hsa]
      simp [packet_store_rel, header_type, header_scacquire, header_screlease,
        header_barrier_bit, header, scope_to_enum, HSA_PACKET_TYPE_INVALID,
        HSA_PACKET_TYPE_BARRIER_AND, HSA_PACKET_TYPE_BARRIER_OR,
        HSA_PACKET_HEADER_TYPE, HSA_PACKET_HEADER_BARRIER,
        HSA_PACKET_HEADER_SCACQUIRE_FENCE_SCOPE,
        HSA_PACKET_HEADER_SCRELEASE_FENCE_SCOPE, HSA_FENCE_SCOPE_NONE,
        HSA_FENCE_SCOPE_AGENT, HSA_FENCE_SCOPE_SYSTEM]
      all_goals decide
    · rw [hsb]
      simp [packet_store_rel, header_type, header_scacquire, header_screlease,
        header_barrier_bit, header, scope_to_enum, HSA_PACKET_TYPE_INVALID,
        HSA_PACKET_TYPE_BARRIER_AND, HSA_PACKET_TYPE_BARRIER_OR,
        HSA_PACKET_HEADER_TYPE, HSA_PACKET_HEADER_BARRIER,
        HSA_PACKET_HEADER_SCACQUIRE_FENCE_SCOPE,
        HSA_PACKET_HEADER_SCRELEASE_FENCE_SCOPE, HSA_FENCE_SCOPE_NONE,
        HSA_FENCE_SCOPE_AGENT, HSA_FENCE_SCOPE_SYSTEM]
      all_goals decide
    · rw [hsa]
      simp [packet_store_rel, header_type, header_scacquire, header_screlease,
        header_barrier_bit, header, scope_to_enum, HSA_PACKET_TYPE_INVALID,
        HSA_PACKET_TYPE_BARRIER_AND, HSA_PACKET_TYPE_BARRIER_OR,
        HSA_PACKET_HEADER_TYPE, HSA_PACKET_HEADER_BARRIER,
        HSA_PACKET_HEADER_SCACQUIRE_FENCE_SCOPE,
        HSA_PACKET_HEADER_SCRELEASE_FENCE_SCOPE, HSA_FENCE_SCOPE_NONE,
        HSA_FENCE_SCOPE_AGENT, HSA_FENCE_SCOPE_SYSTEM]
      all_goals decide
    · rw [hsa]
      simp [packet_store_rel, header_type, header_scacquire, header_screlease,
        header_barrier_bit, header, scope_to_enum, HSA_PACKET_TYPE_INVALID,
        HSA_PACKET_TYPE_BARRIER_AND, HSA_PACKET_TYPE_BARRIER_OR,
        HSA_PACKET_HEADER_TYPE, HSA_PACKET_HEADER_BARRIER,
        HSA_PACKET_HEADER_SCACQUIRE_FENCE_SCOPE,
        HSA_PACKET_HEADER_SCRELEASE_FENCE_SCOPE, HSA_FENCE_SCOPE_NONE,
        HSA_FENCE_SCOPE_AGENT, HSA_FENCE_SCOPE_SYSTEM]
      all_goals decide
    · rw [hsb]
      simp [packet_store_rel, header_type, header_scacquire, header_screlease,
        header_barrier_bit, header, scope_to_enum, HSA_PACKET_TYPE_INVALID,
        HSA_PACKET_TYPE_BARRIER_AND, HSA_PACKET_TYPE_BARRIER_OR,
        HSA_PACKET_HEADER_TYPE, HSA_PACKET_HEADER_BARRIER,
        HSA_PACKET_HEADER_SCACQUIRE_FENCE_SCOPE,
        HSA_PACKET_HEADER_SCRELEASE_FENCE_SCOPE, HSA_FENCE_SCOPE_NONE,
        HSA_FENCE_SCOPE_AGENT, HSA_FENCE_SCOPE_SYSTEM]
      all_goals decide
    · rw [hsb]
      simp [packet_store_rel, header_type, header_scacquire, header_screlease,
        header_barrier_bit, header, scope_to_enum, HSA_PACKET_TYPE_INVALID,
        HSA_PACKET_TYPE_BARRIER_AND, HSA_PACKET_TYPE_BARRIER_OR,
        HSA_PACKET_HEADER_TYPE, HSA_PACKET_HEADER_BARRIER,
        HSA_PACKET_HEADER_SCACQUIRE_FENCE_SCOPE,
        HSA_PACKET_HEADER_SCRELEASE_FENCE_SCOPE, HSA_FENCE_SCOPE_NONE,
        HSA_FENCE_SCOPE_AGENT, HSA_FENCE_SCOPE_SYSTEM]
      all_goals decide
    · rw [hsa]
      simp [packet_store_rel, header_type, header_scacquire, header_screlease,
        header_barrier_bit, header, scope_to_enum, HSA_PACKET_TYPE_INVALID,
        HSA_PACKET_TYPE_BARRIER_AND, HSA_PACKET_TYPE_BARRIER_OR,
        HSA_PACKET_HEADER_TYPE, HSA_PACKET_HEADER_BARRIER,
        HSA_PACKET_HEADER_SCACQUIRE_FENCE_SCOPE,
        HSA_PACKET_HEADER_SCRELEASE_FENCE_SCOPE, HSA_FENCE_SCOPE_NONE,
        HSA_FENCE_SCOPE_AGENT, HSA_FENCE_SCOPE_SYSTEM]
      all_goals decide
    · rw [hsb]
      simp [packet_store_rel, header_type, header_scacquire, header_screlease,
        header_barrier_bit, header, scope_to_enum, HSA_PACKET_TYPE_INVALID,
        HSA_PACKET_TYPE_BARRIER_AND, HSA_PACKET_TYPE_BARRIER_OR,
        HSA_PACKET_HEADER_TYPE, HSA_PACKET_HEADER_BARRIER,
        HSA_PACKET_HEADER_SCACQUIRE_FENCE_SCOPE,
        HSA_PACKET_HEADER_SCRELEASE_FENCE_SCOPE, HSA_FENCE_SCOPE_NONE,
        HSA_FENCE_SCOPE_AGENT, HSA_FENCE_SCOPE_SYSTEM]
      all_goals decide

/-- Witness for C6 amended on `q0` with two dependencies and a completion
signal. -/
theorem C6_barrier_enqueues_witness :
    ((try_enqueue_barrier_and q0 [11, 22] (some 7)).1 = Except.ok ()) ∧
    ((try_enqueue_barrier_or q0 [11, 22] (some 7)).1 = Except.ok ()) ∧
    ((slot_at (try_enqueue_barrier_and q0 [11, 22] (some 7)).2
        q0.writeIndex).dep_signal
      = (List.range 5).map (fun i => List.getD [11, 22] i 0)) ∧
    ((slot_at (try_enqueue_barrier_or q0 [11, 22] (some 7)).2
        q0.writeIndex).dep_signal
      = (List.range 5).map (fun i => List.getD [11, 22] i 0)) ∧
    (∀ s : Nat, (some 7 : Option Nat) = some s →
      (slot_at (try_enqueue_barrier_and q0 [11, 22] (some 7)).2
        q0.writeIndex).completion_signal = s ∧
      (slot_at (try_enqueue_barrier_or q0 [11, 22] (some 7)).2
        q0.writeIndex).completion_signal = s) ∧
    ((some 7 : Option Nat) = none →
      (slot_at (try_enqueue_barrier_and q0 [11, 22] (some 7)).2
        q0.writeIndex).completion_signal
        = (slot_at q0 q0.writeIndex).completion_signal ∧
      (slot_at (try_enqueue_barrier_or q0 [11, 22] (some 7)).2
        q0.writeIndex).completion_signal
        = (slot_at q0 q0.writeIndex).completion_signal) ∧
    (header_type (slot_at (try_enqueue_barrier_and q0 [11, 22] (some 7)).2
        q0.writeIndex).header = HSA_PACKET_TYPE_BARRIER_AND) ∧
    (header_type (slot_at (try_enqueue_barrier_or q0 [11, 22] (some 7)).2
        q0.writeIndex).header = HSA_PACKET_TYPE_BARRIER_OR) ∧
    (header_scacquire (slot_at (try_enqueue_barrier_and q0 [11, 22]
        (some 7)).2 q0.writeIndex).header = HSA_FENCE_SCOPE_NONE) ∧
    (header_screlease (slot_at (try_enqueue_barrier_and q0 [11, 22]
        (some 7)).2 q0.writeIndex).header = HSA_FENCE_SCOPE_NONE) ∧
    (header_scacquire (slot_at (try_enqueue_barrier_or q0 [11, 22]
        (some 7)).2 q0.writeIndex).header = HSA_FENCE_SCOPE_NONE) ∧
    (header_screlease (slot_at (try_enqueue_barrier_or q0 [11, 22]
        (some 7)).2 q0.writeIndex).header = HSA_FENCE_SCOPE_NONE) ∧
    (header_barrier_bit (slot_at (try_enqueue_barrier_and q0 [11, 22]
        (some 7)).2 q0.writeIndex).header
      = if (some 7 : Option Nat).isNone then 1 else 0) ∧
    (header_barrier_bit (slot_at (try_enqueue_barrier_or q0 [11, 22]
        (some 7)).2 q0.writeIndex).header
      = if (some 7 : Option Nat).isNone then 1 else 0) :=
  C6_barrier_enqueues q0 [11, 22] (some 7) (by decide) rfl

theorem u64_sub_self (a : Nat) : u64_sub a a = 0 := by
  simp only [u64_sub, U64_eq]
  omega

theorem tekd_snd_ok (q : QueueState) (d : DispatchPacket)
    (hchk : d.check = Except.ok ())
    (hnot : ¬ q.size ≤ u64_sub q.writeIndex q.readIndex) :
    (try_enqueue_kernel_dispatch q d).1 = Except.ok () ∧
    (try_enqueue_kernel_dispatch q d).2 =
      { q with
        writeIndex := (q.writeIndex + 1) % U64
        packets := (q.packets.set (q.writeIndex &&& (q.size - 1))
          (packet_store_rel
            (d.init_packet (packet_store_rel
              (q.packets.getD (q.writeIndex &&& (q.size - 1)) default)
              (header HSA_PACKET_TYPE_INVALID FenceScope.None FenceScope.None
                true) 0)).1
            (header HSA_PACKET_TYPE_KERNEL_DISPATCH d.scaquire_scope
              d.screlease_scope d.ordered)
            (((d.init_packet (packet_store_rel
              (q.packets.getD (q.writeIndex &&& (q.size - 1)) default)
              (header HSA_PACKET_TYPE_INVALID FenceScope.None FenceScope.None
                true) 0)).2 % 2 ^ 16) <<<
              HSA_KERNEL_DISPATCH_PACKET_SETUP_DIMENSIONS)))
        signals := (Function.update q.signals q.doorbell
          (toI64 q.writeIndex)) } := by
  constructor
  · simp only [try_enqueue_kernel_dispatch, hchk]
    rw [teq_fst, if_neg hnot]
  · simp only [try_enqueue_kernel_dispatch, hchk]
    rw [teq_snd_ok q _ hnot]

/-- C4: a valid dispatch descriptor (all six dimensions non-zero) enqueued
on an empty queue and then drained by one iteration of the consumer loop
presents the handler a packet whose workgroup dims, grid dims, segment
sizes, kernel object and kernel-argument pointer are exactly those of the
submitted descriptor. -/
theorem C4_round_trip (q : QueueState) (d : DispatchPacket)
    (hwg1 : d.workgroup_size.1 ≠ 0) (hwg2 : d.workgroup_size.2.1 ≠ 0)
    (hwg3 : d.workgroup_size.2.2 ≠ 0) (hg1 : d.grid_size.1 ≠ 0)
    (hg2 : d.grid_size.2.1 ≠ 0) (hg3 : d.grid_size.2.2 ≠ 0)
    (hempty : q.writeIndex = q.readIndex) (hpos : 0 < q.size)
    (hlen : q.packets.length = q.size) :
    (try_enqueue_kernel_dispatch q d).1 = Except.ok () ∧
    ∃ s : Slot,
      SoftQueue.process 1 (try_enqueue_kernel_dispatch q d).2
          (fun p => ProcessLoopResult.Exit p)
        = some (s, drain_step (try_enqueue_kernel_dispatch q d).2
            (try_enqueue_kernel_dispatch q d).2.readIndex) ∧
      s.workgroup_size_x = d.workgroup_size.1 ∧
      s.workgroup_size_y = d.workgroup_size.2.1 ∧
      s.workgroup_size_z = d.workgroup_size.2.2 ∧
      s.grid_size_x = d.grid_size.1 ∧
      s.grid_size_y = d.grid_size.2.1 ∧
      s.grid_size_z = d.grid_size.2.2 ∧
      s.private_segment_size = d.private_segment_size ∧
      s.group_segment_size = d.group_segment_size ∧
      s.kernel_object = d.kernel_object ∧
      s.kernarg_address = d.kernel_args := by
  have hchk : d.check = Except.ok () := by
    simp [DispatchPacket.check, hwg1, hwg2, hwg3, hg1, hg2, hg3]
  have hnot : ¬ q.size ≤ u64_sub q.writeIndex q.readIndex := by
    rw [← hempty, u64_sub_self]
    omega
  obtain ⟨h1, h2⟩ := tekd_snd_ok q d hchk hnot
  have hidx : q.writeIndex &&& (q.size - 1) < q.packets.length := by
    have hb : q.writeIndex &&& (q.size - 1) ≤ q.size - 1 := Nat.and_le_right
    omega
  have hpacket : (try_enqueue_kernel_dispatch q d).2.packets.getD
      ((try_enqueue_kernel_dispatch q d).2.readIndex &&&
        ((try_enqueue_kernel_dispatch q d).2.size - 1)) default =
      packet_store_rel
        (d.init_packet (packet_store_rel
          (q.packets.getD (q.writeIndex &&& (q.size - 1)) default)
          (header HSA_PACKET_TYPE_INVALID FenceScope.None FenceScope.None
            true) 0)).1
        (header HSA_PACKET_TYPE_KERNEL_DISPATCH d.scaquire_scope
          d.screlease_scope d.ordered)
        (((d.init_packet (packet_store_rel
          (q.packets.getD (q.writeIndex &&& (q.size - 1)) default)
          (header HSA_PACKET_TYPE_INVALID FenceScope.None FenceScope.None
            true) 0)).2 % 2 ^ 16) <<<
          HSA_KERNEL_DISPATCH_PACKET_SETUP_DIMENSIONS) := by
    rw [h2]
    simp only [← hempty]
    simp [List.getD, List.getElem?_set, hidx]
  have hdoor : ¬ ((try_enqueue_kernel_dispatch q d).2.signals
      (try_enqueue_kernel_dispatch q d).2.doorbell <
      toI64 (try_enqueue_kernel_dispatch q d).2.readIndex) := by
    rw [h2]
    simp only [← hempty]
    simp [Function.update_same]
  have hproc : SoftQueue.process 1 (try_enqueue_kernel_dispatch q d).2
      (fun p => ProcessLoopResult.Exit p)
      = some ((try_enqueue_kernel_dispatch q d).2.packets.getD
          ((try_enqueue_kernel_dispatch q d).2.readIndex &&&
            ((try_enqueue_kernel_dispatch q d).2.size - 1)) default,
        drain_step (try_enqueue_kernel_dispatch q d).2
          (try_enqueue_kernel_dispatch q d).2.readIndex) := by
    simp only [SoftQueue.process, load_read_index_scacquire, process_loop]
    rw [if_neg hdoor]
  rw [hpacket] at hproc
  refine ⟨h1, _, hproc, ?_, ?_, ?_, ?_, ?_, ?_, ?_, ?_, ?_, ?_⟩ <;>
    exact rfl

/-- Witness for C4: the concrete dispatch `c2_dispatch` on the empty
queue `q0`. -/
theorem C4_round_trip_witness :
    (try_enqueue_kernel_dispatch q0 c2_dispatch).1 = Except.ok () ∧
    ∃ s : Slot,
      SoftQueue.process 1 (try_enqueue_kernel_dispatch q0 c2_dispatch).2
          (fun p => ProcessLoopResult.Exit p)
        = some (s, drain_step (try_enqueue_kernel_dispatch q0 c2_dispatch).2
            (try_enqueue_kernel_dispatch q0 c2_dispatch).2.readIndex) ∧
      s.workgroup_size_x = c2_dispatch.workgroup_size.1 ∧
      s.workgroup_size_y = c2_dispatch.workgroup_size.2.1 ∧
      s.workgroup_size_z = c2_dispatch.workgroup_size.2.2 ∧
      s.grid_size_x = c2_dispatch.grid_size.1 ∧
      s.grid_size_y = c2_dispatch.grid_size.2.1 ∧
      s.grid_size_z = c2_dispatch.grid_size.2.2 ∧
      s.private_segment_size = c2_dispatch.private_segment_size ∧
      s.group_segment_size = c2_dispatch.group_segment_size ∧
      s.kernel_object = c2_dispatch.kernel_object ∧
      s.kernarg_address = c2_dispatch.kernel_args :=
  C4_round_trip q0 c2_dispatch (by decide) (by decide) (by decide)
    (by decide) (by decide) (by decide) rfl (by decide) rfl

end Geobacter
